import Mathlib

/-!
Verification of the ASHADIP reporting pipeline and audio backbone.

Shallow embedding of:
  * src/scripts/variants_avg_to_latex.py  (variant aggregation + summary table)
  * src/scripts/analysis_to_latex.py      (per-run classification table + CSV backup)
  * src/adapters/audio_adapter.py         (TinyAudioCNN feature backbone)

Conventions of the embedding:
  * Python floats are modelled as rationals; `f"...:.Nf"` formatting is
    round-half-even fixed-point rendering, matching CPython's behaviour on
    the (non-tie) values exercised here.
  * JSON / pandas cell values are modelled by `PyVal`
    (a number, a string, or null -- null also stands for pandas NaN and
    Python None, which is how missing cells surface in these scripts).
  * Python code that can raise is modelled in `Except String`;
    `Except.error` corresponds to an uncaught exception / `SystemExit`.
  * Python's `sorted` is a stable sort; it is modelled by
    `List.insertionSort`, which is also stable.
-/

/-- A JSON / pandas scalar cell value: a number, a string, or null
(null also models pandas NaN and Python None). -/
inductive PyVal where
  | num (q : ℚ)
  | str (s : String)
  | null
deriving DecidableEq

/-- Model of `pd.isna` on a scalar: true exactly on None / NaN. -/
def pdIsna : PyVal → Bool
  | PyVal.null => true
  | _ => false

/-- All characters are decimal digits and the list is nonempty: the digit value.
Helper for Python `int(...)` on strings. -/
def digitsToNat : List Char → Option ℕ
  | [] => Option.none
  | cs =>
    if cs.all (fun c => c.isDigit) then
      some (cs.foldl (fun acc c => 10 * acc + (c.toNat - 48)) 0)
    else
      Option.none

/-- Python `int(s)` on a string: optional surrounding whitespace, optional
sign, then decimal digits (leading zeros allowed, so `int "01" = 1`).
Returns `none` where CPython raises ValueError.  (CPython additionally
accepts underscore digit separators, which never occur in this data.) -/
def pyIntParse (s : String) : Option Int :=
  match s.trim.toList with
  | '+' :: rest => (digitsToNat rest).map Int.ofNat
  | '-' :: rest => (digitsToNat rest).map (fun n => -(n : Int))
  | cs => (digitsToNat cs).map Int.ofNat

/-- Unsigned decimal literal with an optional fractional part, as accepted by
Python `float(...)`: `"12"`, `"12.5"`, `"12."`, `".5"`. -/
def parseUnsignedFloat (cs : List Char) : Option ℚ :=
  let intPart := cs.takeWhile (fun c => c ≠ '.')
  let rest := cs.dropWhile (fun c => c ≠ '.')
  match rest with
  | [] => (digitsToNat intPart).map (fun n => (n : ℚ))
  | '.' :: frac =>
    if intPart.isEmpty ∧ frac.isEmpty then Option.none
    else if intPart.all (fun c => c.isDigit) ∧ frac.all (fun c => c.isDigit) then
      some ((intPart.foldl (fun acc c => 10 * acc + (c.toNat - 48)) 0 : ℕ)
        + ((frac.foldl (fun acc c => 10 * acc + (c.toNat - 48)) 0 : ℕ) : ℚ)
          / (10 : ℚ) ^ frac.length)
    else Option.none
  | _ => Option.none

/-- Python `float(s)` on a string: optional whitespace and sign, then a
decimal literal.  Returns `none` where CPython raises ValueError.
(Exponents and inf/nan spellings, never produced by this pipeline,
are not modelled.) -/
def parseFloat (s : String) : Option ℚ :=
  match s.trim.toList with
  | '+' :: rest => parseUnsignedFloat rest
  | '-' :: rest => (parseUnsignedFloat rest).map Neg.neg
  | cs => parseUnsignedFloat cs

/-- Python `float(x)` coercion of a scalar cell: numbers pass through,
numeric strings parse, everything else raises (modelled as `none`). -/
def pyFloat : PyVal → Option ℚ
  | PyVal.num q => some q
  | PyVal.str s => parseFloat s
  | PyVal.null => Option.none

/-- Floor of a rational, computed with flooring integer division. -/
def ratFloor (q : ℚ) : ℤ := q.num.fdiv (q.den : ℤ)

/-- Round to the nearest integer, ties to even -- the rounding CPython's
fixed-point float formatting performs. -/
def roundHalfEven (q : ℚ) : ℤ :=
  let f := ratFloor q
  let r := q - (f : ℚ)
  if r < 1 / 2 then f
  else if 1 / 2 < r then f + 1
  else if f % 2 = 0 then f else f + 1

/-- Left-pad a digit string with zeros to width `d`. -/
def natPad (d : ℕ) (s : String) : String :=
  String.mk (List.replicate (d - s.length) '0') ++ s

/-- CPython `f"{q:.df}"` on a (rational-valued) float: fixed-point with
exactly `d` fractional digits, round-half-even, and a sign taken from the
input (so a negative value rounding to zero prints `-0.0`, as in CPython). -/
def fmtFixed (d : ℕ) (q : ℚ) : String :=
  let sign := if q < 0 then "-" else ""
  let n := (roundHalfEven (|q| * (10 : ℚ) ^ d)).toNat
  let ip := n / 10 ^ d
  let fp := n % 10 ^ d
  if d = 0 then sign ++ toString ip
  else sign ++ toString ip ++ "." ++ natPad d (toString fp)

/-- CPython format `f"{v:.df}"` applied to an arbitrary cell value: defined
on numbers only; strings and None raise (ValueError / TypeError), with no
coercion attempted. -/
def pyFormatFixed (d : ℕ) : PyVal → Except String String
  | PyVal.num q => Except.ok (fmtFixed d q)
  | PyVal.str _ => Except.error "Unknown format code f for object of type str"
  | PyVal.null => Except.error "unsupported format string passed to NoneType.__format__"

/-- Python `int(x)` coercion of a scalar cell: numbers truncate toward zero,
strings must be integer literals, None raises. -/
def pyToInt : PyVal → Except String Int
  | PyVal.num q => Except.ok (if 0 ≤ q then ratFloor q else -ratFloor (-q))
  | PyVal.str s =>
    match pyIntParse s with
    | some i => Except.ok i
    | Option.none => Except.error "invalid literal for int() with base 10"
  | PyVal.null => Except.error "int() argument must not be NoneType"

/-- Whether `pat` occurs as a contiguous substring of `s` (for non-empty `pat`). -/
def containsSub (s pat : String) : Bool :=
  2 ≤ (s.splitOn pat).length

/-- Python `str.capitalize`: first character upper-cased, the rest lowered. -/
def pyCapitalize (s : String) : String :=
  match s.toList with
  | [] => ""
  | c :: rest => String.mk (c.toUpper :: rest.map Char.toLower)

deriving instance DecidableEq for Except

namespace VariantsAvg

/-!
Embedding of src/scripts/variants_avg_to_latex.py.

A row of the input CSV (`all_runs_summary.csv`) is a `RunRecord`; a field
holding `Option.none` models an empty / NaN cell for that row.  The CSV
header is carried separately in `VariantsInput.columns`, since the script
checks for the presence of the `variant` column by name.
-/

/-- One row of the per-run summary CSV.  `none` models a missing (NaN)
cell in the corresponding numeric column. -/
structure RunRecord where
  run_id : String
  variant : String
  policy_test_acc : Option ℚ
  compute_saving_pct : Option ℚ
  exit_e1 : Option ℚ
  exit_e2 : Option ℚ
  exit_e3 : Option ℚ
  expected_mflops : Option ℚ
  full_mflops : Option ℚ
deriving DecidableEq

/-- The rows of the CSV sharing the given variant, in input order
(`df_runs.groupby("variant")` groups exactly these rows). -/
def groupRecs (recs : List RunRecord) (v : String) : List RunRecord :=
  recs.filter (fun r => r.variant == v)

/-- The values of one numeric field that are present (non-NaN) among the
rows of variant `v`. -/
def presentVals (f : RunRecord → Option ℚ) (recs : List RunRecord) (v : String) :
    List ℚ :=
  (groupRecs recs v).filterMap f

/-- Pandas `"mean"` aggregation of one column within one group: the
arithmetic mean of the non-NaN values, and NaN (here `none`) when no
value is present. -/
def fieldMean (f : RunRecord → Option ℚ) (recs : List RunRecord) (v : String) :
    Option ℚ :=
  let xs := presentVals f recs v
  if xs.isEmpty then Option.none else some (xs.sum / (xs.length : ℚ))

/-- One row of the `groupby("variant").agg(...)` output. -/
structure VariantSummary where
  variant : String
  n_runs : ℕ
  policy_test_acc_mean : Option ℚ
  compute_saving_pct_mean : Option ℚ
  exit_e1_mean : Option ℚ
  exit_e2_mean : Option ℚ
  exit_e3_mean : Option ℚ
  expected_mflops_mean : Option ℚ
  full_mflops_mean : Option ℚ
deriving DecidableEq

/-- The aggregate row for variant `v`: run count (`("run_id","count")`,
which counts the rows of the group since `run_id` is always present)
and the per-field means. -/
def summarize (recs : List RunRecord) (v : String) : VariantSummary where
  variant := v
  n_runs := (groupRecs recs v).length
  policy_test_acc_mean := fieldMean (fun r => r.policy_test_acc) recs v
  compute_saving_pct_mean := fieldMean (fun r => r.compute_saving_pct) recs v
  exit_e1_mean := fieldMean (fun r => r.exit_e1) recs v
  exit_e2_mean := fieldMean (fun r => r.exit_e2) recs v
  exit_e3_mean := fieldMean (fun r => r.exit_e3) recs v
  expected_mflops_mean := fieldMean (fun r => r.expected_mflops) recs v
  full_mflops_mean := fieldMean (fun r => r.full_mflops) recs v

/-- The distinct variants of the input, in the ascending order pandas
`groupby` sorts group keys into. -/
def sortedVariants (recs : List RunRecord) : List String :=
  List.insertionSort (fun a b => a ≤ b) ((recs.map (fun r => r.variant)).dedup)

/-- The full `agg_df`: one `VariantSummary` per distinct variant. -/
def aggregate (recs : List RunRecord) : List VariantSummary :=
  (sortedVariants recs).map (fun v => summarize recs v)

/-- Function `fmt_pct_frac` from `make_latex_table`: NaN prints the `"--"`
placeholder, otherwise `float(x) * 100` with one decimal; a value
`float` cannot coerce also prints `"--"` (the bare `except`). -/
def fmt_pct_frac (v : PyVal) : String :=
  if pdIsna v then "--"
  else match pyFloat v with
    | some q => fmtFixed 1 (q * 100)
    | Option.none => "--"

/-- Function `fmt_pct` from `make_latex_table`: as `fmt_pct_frac` but without the
scaling by 100. -/
def fmt_pct (v : PyVal) : String :=
  if pdIsna v then "--"
  else match pyFloat v with
    | some q => fmtFixed 1 q
    | Option.none => "--"

/-- A rendered-table input row: what `df.iterrows()` yields from `agg_df`
(cells are scalars; a missing mean is NaN, i.e. `PyVal.null`). -/
structure AggRow where
  variant : String
  n_runs : ℕ
  policy_test_acc_mean : PyVal
  compute_saving_pct_mean : PyVal
  exit_e1_mean : PyVal
  exit_e2_mean : PyVal
  exit_e3_mean : PyVal
deriving DecidableEq

/-- View a `VariantSummary` as a table row (a missing mean is NaN). -/
def optToPy : Option ℚ → PyVal
  | some q => PyVal.num q
  | Option.none => PyVal.null

/-- The `agg_df` row as seen by `make_latex_table`. -/
def VariantSummary.toRow (s : VariantSummary) : AggRow where
  variant := s.variant
  n_runs := s.n_runs
  policy_test_acc_mean := optToPy s.policy_test_acc_mean
  compute_saving_pct_mean := optToPy s.compute_saving_pct_mean
  exit_e1_mean := optToPy s.exit_e1_mean
  exit_e2_mean := optToPy s.exit_e2_mean
  exit_e3_mean := optToPy s.exit_e3_mean

/-- The body line emitted for one variant row. -/
def renderAggRow (r : AggRow) : String :=
  "    " ++ r.variant ++ " & " ++ toString r.n_runs
    ++ " & " ++ fmt_pct_frac r.policy_test_acc_mean
    ++ " & " ++ fmt_pct r.compute_saving_pct_mean
    ++ " & " ++ fmt_pct_frac r.exit_e1_mean
    ++ " & " ++ fmt_pct_frac r.exit_e2_mean
    ++ " & " ++ fmt_pct_frac r.exit_e3_mean
    ++ " \\\\"

/-- Fixed preamble lines of the variants table. -/
def tableHeader : List String :=
  [ "\\begin\x7btable\x7d[ht]"
  , "  \\centering"
  , "  \\caption\x7bAverage early-exit performance per ASHADIP variant.\x7d"
  , "  \\label\x7btab:ashadip_variants_avg\x7d"
  , "  \\begin\x7btabular\x7d\x7blrrrrrr\x7d"
  , "    \\toprule"
  , "    Variant & Runs & Acc$_\x7b\\text\x7bpolicy\x7d\x7d$ (\\%) & Save (\\%) & Exit1 (\\%) & Exit2 (\\%) & Exit3 (\\%) \\\\"
  , "    \\midrule" ]

/-- Fixed closing lines of the variants table. -/
def tableFooter : List String :=
  [ "    \\bottomrule"
  , "  \\end\x7btabular\x7d"
  , "\\end\x7btable\x7d" ]

/-- Function `make_latex_table` of variants_avg_to_latex.py: a total function --
every cell failure is absorbed into the `"--"` placeholder. -/
def make_latex_table (rows : List AggRow) : String :=
  String.intercalate "\n" (tableHeader ++ rows.map renderAggRow ++ tableFooter)

/-- The input table: the CSV header plus one `RunRecord` per row.  Only the
`variant` membership test reads `columns` in the code path modelled here
(pandas would separately fail if the aggregated numeric columns were
absent from the header). -/
structure VariantsInput where
  columns : List String
  records : List RunRecord

/-- Error message for an empty input table (SystemExit, line 93). -/
def noRowsMsg (path : String) : String :=
  "No rows in " ++ path ++ "; nothing to summarise."

/-- Error message for a missing `variant` column (SystemExit, lines 96-99).
The source quotes the column name; the quotes are omitted here. -/
def noVariantColMsg : String :=
  "Column variant not found in all_runs_summary.csv. "
    ++ "Make sure compare_variants.py writes a variant column."

/-- Function `main` of variants_avg_to_latex.py after the CSV is read: empty-table
check, `variant`-column check, aggregation, rendering.  `Except.error`
models `SystemExit` before any output file is written; `Except.ok`
carries the rendered table. -/
def variantsMain (t : VariantsInput) (path : String) : Except String String :=
  if t.records.isEmpty then Except.error (noRowsMsg path)
  else if t.columns.contains "variant" then
    Except.ok (make_latex_table ((aggregate t.records).map VariantSummary.toRow))
  else Except.error noVariantColMsg

end VariantsAvg

namespace AnalysisToLatex

/-!
Embedding of src/scripts/analysis_to_latex.py.

A classification-report block (one exit) is an association list from key
to entry, in JSON insertion order; an entry is either a nested metrics
dict (class rows, `macro avg`, `weighted avg`) or a bare scalar
(`accuracy`).  Python dict iteration order is the list order.
-/

/-- The per-metric dict of one report line.  `none` models an absent key
(`stats.get(...)` then supplies the default).  The source's `recall`
key is named `recall_val` here, `recall` being reserved in this prover. -/
structure MetricsDict where
  precision : Option PyVal
  recall_val : Option PyVal
  f1 : Option PyVal
  support : Option PyVal
deriving DecidableEq

/-- One value of a classification-report dict: a nested metrics dict or a
bare scalar (as `accuracy` is). -/
inductive Entry where
  | meas (m : MetricsDict)
  | scal (v : PyVal)
deriving DecidableEq

/-- One exit's classification-report dict: keys with their entries, in
insertion order. -/
def ExitDict := List (String × Entry)

/-- Python `d[k]` / `k in d` lookup. -/
def lookupDict (d : ExitDict) (k : String) : Option Entry :=
  (d.find? (fun p => p.1 == k)).map (fun p => p.2)

/-- The reserved aggregate keys of a classification report. -/
def aggregateKeys : List String := ["accuracy", "macro avg", "weighted avg"]

/-- The class keys of one exit dict: every key that is not reserved, in
dict order (line 58 of the source). -/
def classKeys (d : ExitDict) : List String :=
  (d.map (fun p => p.1)).filter (fun k => !(aggregateKeys.contains k))

/-- The sort key used by `sorted(class_keys, key=lambda x: int(x))`.
In the branch where it is used every key parses, so the default is
never taken. -/
def keyInt (k : String) : Int := (pyIntParse k).getD 0

/-- Every class key parses as an integer (the `try` on lines 61-66
succeeds exactly when this holds). -/
def allIntKeys (ks : List String) : Bool :=
  ks.all (fun k => (pyIntParse k).isSome)

/-- Lines 60-66: sort numerically when every key parses as an integer,
lexicographically otherwise.  Python's `sorted` is stable;
`List.insertionSort` is the matching stable sort. -/
def sortClassKeys (ks : List String) : List String :=
  if allIntKeys ks then
    List.insertionSort (fun a b => keyInt a ≤ keyInt b) ks
  else
    List.insertionSort (fun a b => a ≤ b) ks

/-- Python `names[i]` on a list: non-negative indices are positional,
negative indices count from the end, anything else raises IndexError
(modelled as `none`). -/
def pyIndex (names : List String) (i : Int) : Option String :=
  if 0 ≤ i then names.get? i.toNat
  else if (-i).toNat ≤ names.length then
    names.get? (names.length - (-i).toNat)
  else Option.none

/-- Lines 76-84 (and 188-196): map a class key to a human-readable label.
`int(cls)` failing (ValueError) or the index being out of range
(IndexError) falls back to the raw key; no other outcome is possible. -/
def translateLabel (label_names : Option (List String)) (cls : String) : String :=
  match label_names with
  | Option.none => cls
  | some names =>
    match pyIntParse cls with
    | Option.none => cls
    | some i =>
      match pyIndex names i with
      | some nm => nm
      | Option.none => cls

/-- Lines 69-74 and 86-88: one class/aggregate body line.  Missing metrics
default to `0.0` (support to `0`) before formatting; a value the format
spec cannot handle raises, aborting the whole table. -/
def renderMetricRow (name : String) (m : MetricsDict) : Except String String := do
  let p ← pyFormatFixed 3 (m.precision.getD (PyVal.num 0))
  let r ← pyFormatFixed 3 (m.recall_val.getD (PyVal.num 0))
  let f ← pyFormatFixed 3 (m.f1.getD (PyVal.num 0))
  let s ← pyToInt (m.support.getD (PyVal.num 0))
  Except.ok ("    " ++ name ++ " & " ++ p ++ " & " ++ r ++ " & " ++ f
    ++ " & " ++ toString s ++ " \\\\")

/-- The class-row lines of one exit block, in sorted key order.  A class
key whose entry is not a dict makes `stats.get` raise AttributeError. -/
def classRowLines (d : ExitDict) (label_names : Option (List String)) :
    Except String (List String) :=
  (sortClassKeys (classKeys d)).mapM (fun cls =>
    match lookupDict d cls with
    | some (Entry.meas m) => renderMetricRow (translateLabel label_names cls) m
    | some (Entry.scal _) => Except.error "AttributeError: get on a non-dict entry"
    | Option.none => Except.error "KeyError")

/-- Lines 90-94: the accuracy rows.  `exit_dict.get("accuracy", None)`
yielding None (absent key, or a JSON null) emits nothing; a numeric
scalar emits a midrule and the accuracy line; any other value makes the
format spec raise. -/
def accuracyLines (d : ExitDict) : Except String (List String) :=
  match lookupDict d "accuracy" with
  | Option.none => Except.ok []
  | some (Entry.scal PyVal.null) => Except.ok []
  | some (Entry.scal (PyVal.num q)) =>
    Except.ok [ "    \\midrule"
              , "    accuracy & \\multicolumn\x7b3\x7d\x7br\x7d\x7b"
                  ++ fmtFixed 3 q ++ "\x7d & -- \\\\" ]
  | some (Entry.scal (PyVal.str _)) =>
    Except.error "Unknown format code f for object of type str"
  | some (Entry.meas _) =>
    Except.error "unsupported format string passed to dict.__format__"

/-- Lines 97-106: the `macro avg` / `weighted avg` rows, each emitted only
when its key is present. -/
def aggregateLines (d : ExitDict) : Except String (List String) := do
  let rows ← (["macro avg", "weighted avg"].filterMap (fun k =>
      (lookupDict d k).map (fun e => (k, e)))).mapM (fun ke =>
    match ke.2 with
    | Entry.meas m => renderMetricRow ke.1 m
    | Entry.scal _ => Except.error "AttributeError: get on a non-dict entry")
  Except.ok rows

/-- Function `add_exit_block` (lines 48-109): header, class rows in deterministic
order, optional accuracy rows, optional aggregate rows, closing midrule. -/
def add_exit_block (exit_name : String) (d : ExitDict)
    (label_names : Option (List String)) : Except String (List String) := do
  let classRows ← classRowLines d label_names
  let accRows ← accuracyLines d
  let aggRows ← aggregateLines d
  Except.ok
    ([ "    \\multicolumn\x7b5\x7d\x7bc\x7d\x7b" ++ pyCapitalize exit_name ++ "\x7d \\\\"
     , "    \\midrule" ]
      ++ classRows ++ accRows ++ aggRows ++ ["    \\midrule"])

/-- Replace the first occurrence of `pat` in `cs` by `rep` (at most one
replacement, like `str.replace` after the loop breaks). -/
def replaceFirstSub (pat rep : List Char) : List Char → List Char
  | [] => []
  | c :: rest =>
    if (c :: rest).take pat.length = pat then rep ++ (c :: rest).drop pat.length
    else c :: replaceFirstSub pat rep rest

/-- Lines 116-119: walk the emitted lines backwards and turn the last
`\midrule` into `\bottomrule`. -/
def replaceLastMidrule (lines : List String) : List String :=
  let rec go : List String → List String
    | [] => []
    | l :: rest =>
      if containsSub l "\\midrule" then
        String.mk (replaceFirstSub "\\midrule".toList "\\bottomrule".toList l.toList)
          :: rest
      else l :: go rest
  (go lines.reverse).reverse

/-- The whole classification-per-exit mapping, in JSON insertion order. -/
def Cpe := List (String × ExitDict)

/-- Lookup of one exit's dict. -/
def lookupCpe (cpe : Cpe) (k : String) : Option ExitDict :=
  (cpe.find? (fun p => p.1 == k)).map (fun p => p.2)

/-- Function `make_latex_table` of analysis_to_latex.py: preamble, one block per exit
in lexicographic exit-name order, last midrule turned into a bottomrule,
closing lines.  An exception in any block aborts the whole table. -/
def make_latex_table (cpe : Cpe) (run_label : String)
    (label_names : Option (List String)) : Except String String := do
  let header :=
    [ "\\begin\x7btable\x7d[ht]"
    , "  \\centering"
    , "  \\caption\x7bClassification metrics per exit for " ++ run_label ++ ".\x7d"
    , "  \\label\x7btab:"
        ++ (String.replace run_label " " "_").toLower ++ "_cls\x7d"
    , "  \\begin\x7btabular\x7d\x7blrrrr\x7d"
    , "    \\toprule"
    , "    Class / summary & Precision & Recall & F1-score & Support \\\\"
    , "    \\midrule" ]
  let blocks ← (List.insertionSort (fun a b => a ≤ b)
      (cpe.map (fun p => p.1))).mapM (fun en =>
    match lookupCpe cpe en with
    | some d => add_exit_block en d label_names
    | Option.none => Except.error "KeyError")
  let body := replaceLastMidrule (header ++ blocks.flatten)
  Except.ok (String.intercalate "\n"
    (body ++ ["  \\end\x7btabular\x7d", "\\end\x7btable\x7d"]))

end AnalysisToLatex

namespace AnalysisToLatex

/-- One row of the flat CSV backup (lines 160-209): raw metric values (or
null), with the accuracy scalar in its own dedicated column. -/
structure BackupRow where
  exit_name : String
  row_type : String
  name : String
  precision : Option PyVal
  recall_val : Option PyVal
  f1_score : Option PyVal
  support : Option PyVal
  accuracy : Option ℚ
deriving DecidableEq

/-- Row type of a backup row: `"summary"` for reserved keys, `"class"`
otherwise (line 186). -/
def rowTypeOf (key : String) : String :=
  if aggregateKeys.contains key then "summary" else "class"

/-- Name stored in a backup row: class rows are label-translated when a
name list is supplied; summary rows keep their key (lines 188-196). -/
def backupName (label_names : Option (List String)) (key : String) : String :=
  if rowTypeOf key = "class" then translateLabel label_names key else key

/-- Lines 164-209, one dict entry: the `accuracy` key coerces its scalar
with `float(...)` into the dedicated column (raising on a non-number);
any other non-dict entry is skipped; a dict entry becomes a row carrying
the raw `stats.get` values and a null accuracy column. -/
def flattenEntry (exit_name : String) (label_names : Option (List String))
    (key : String) (e : Entry) : Except String (Option BackupRow) :=
  if key = "accuracy" then
    match e with
    | Entry.scal v =>
      match pyFloat v with
      | some q =>
        Except.ok (some
          { exit_name := exit_name, row_type := "summary", name := "accuracy"
          , precision := Option.none, recall_val := Option.none
          , f1_score := Option.none, support := Option.none
          , accuracy := some q })
      | Option.none => Except.error "float() argument is not a number"
    | Entry.meas _ => Except.error "float() argument must not be a dict"
  else
    match e with
    | Entry.scal _ => Except.ok Option.none
    | Entry.meas m =>
      Except.ok (some
        { exit_name := exit_name, row_type := rowTypeOf key
        , name := backupName label_names key
        , precision := m.precision, recall_val := m.recall_val
        , f1_score := m.f1, support := m.support
        , accuracy := Option.none })

/-- The whole CSV backup: every exit's entries in dict order, flattened. -/
def flattenRows (cpe : Cpe) (label_names : Option (List String)) :
    Except String (List BackupRow) := do
  let nested ← cpe.mapM (fun ed =>
    ed.2.mapM (fun ke => flattenEntry ed.1 label_names ke.1 ke.2))
  Except.ok (nested.flatten.filterMap id)

/-- The parsed analysis_run.json, restricted to the keys the script reads. -/
structure AnalysisJson where
  classification_per_exit : Option Cpe
  label_names : Option (List String)

/-- Error message for a missing `classification_per_exit` key
(SystemExit, lines 154-158).  The source quotes the key name; the
quotes are omitted here. -/
def noCpeMsg (path : String) : String :=
  "No classification_per_exit found in " ++ path
    ++ ". Did you generate analysis_run.json with analyse_run.py?"

/-- Function `main` of analysis_to_latex.py after the JSON is parsed: the missing-key
check precedes every output write, then the CSV backup rows are computed
(and written), then the LaTeX table.  `Except.error` models an uncaught
exception / `SystemExit` with no output file written yet at the failure
point; `Except.ok` carries both artifacts. -/
def analysisMain (a : AnalysisJson) (run_label path : String) :
    Except String (List BackupRow × String) :=
  match a.classification_per_exit with
  | Option.none => Except.error (noCpeMsg path)
  | some cpe => do
    let rows ← flattenRows cpe a.label_names
    let tex ← make_latex_table cpe run_label a.label_names
    Except.ok (rows, tex)

end AnalysisToLatex

namespace AudioAdapter

/-!
Embedding of src/adapters/audio_adapter.py.

A (B, C, H, W) tensor is a function of its four indices.  The three
convolutional blocks are learned maps whose parameters live outside this
core; each is modelled as an arbitrary function of the right shape
(block1/block2 halve the spatial dimensions -- kept abstract here as
positive sizes `h1+1, w1+1, h2+1, w2+1` -- and block3 ends in
`AdaptiveAvgPool2d((1,1))`, so its output is 1x1 by construction).
The claims under verification concern only the reduction structure of
`forward`, which is translated exactly.
-/

/-- A (batch, channel, height, width) tensor of rational activations. -/
def Tensor (b c h w : ℕ) : Type := Fin b → Fin c → Fin h → Fin w → ℚ

/-- Model of `torch.amax(f, dim=-1)`: per-(batch, channel, row) maximum over the
last (time) axis. -/
def amaxLast {b c h w : ℕ} (f : Tensor b c h (w + 1)) :
    Fin b → Fin c → Fin h → ℚ :=
  fun i j k => Finset.univ.sup' (Finset.univ_nonempty) (fun l => f i j k l)

/-- Model of `.mean(-1)`: per-(batch, channel) mean over the remaining (frequency)
axis. -/
def meanLast {b c h : ℕ} (g : Fin b → Fin c → Fin (h + 1) → ℚ) :
    Fin b → Fin c → ℚ :=
  fun i j => (∑ k, g i j k) / ((h : ℚ) + 1)

/-- The TinyAudioCNN backbone: three stages, the first two with 16 and 32
output channels, the last with 64 channels pooled to 1x1. -/
structure TinyAudioCNN (b m t h1 w1 h2 w2 : ℕ) where
  block1 : Tensor b 1 m t → Tensor b 16 (h1 + 1) (w1 + 1)
  block2 : Tensor b 16 (h1 + 1) (w1 + 1) → Tensor b 32 (h2 + 1) (w2 + 1)
  block3 : Tensor b 32 (h2 + 1) (w2 + 1) → Tensor b 64 1 1

/-- The number of convolutional stages of the backbone. -/
def numStages : ℕ := 3

/-- A tap or the final feature: a channel count together with a
per-batch-item vector of that many channels. -/
def Feat (b : ℕ) : Type := Σ c : ℕ, Fin b → Fin c → ℚ

/-- Method `TinyAudioCNN.forward`: runs the three blocks in sequence, reduces the
two intermediate activations to channel vectors (max over time, then mean
over frequency), flattens the final 1x1 map, and returns the final feature
together with the tap list `[t1, t2]`. -/
def TinyAudioCNN.forward {b m t h1 w1 h2 w2 : ℕ}
    (net : TinyAudioCNN b m t h1 w1 h2 w2) (x : Tensor b 1 m t) :
    (Fin b → Fin 64 → ℚ) × List (Feat b) :=
  let f1 := net.block1 x
  let f2 := net.block2 f1
  let f3 := net.block3 f2
  let t1 := meanLast (amaxLast f1)
  let t2 := meanLast (amaxLast f2)
  let t3 := fun i j => f3 i j 0 0
  (t3, [⟨16, t1⟩, ⟨32, t2⟩])

end AudioAdapter

/-!  Concrete inputs used by the witnesses and counterexamples below. -/

namespace VariantsAvg

/-- Three runs of variant A with policy accuracies 0.90, 0.92, 0.94; the
second lacks `exit_e3`. -/
def c1recs : List RunRecord :=
  [ { run_id := "r1", variant := "A", policy_test_acc := some (9 / 10)
    , compute_saving_pct := some 30, exit_e1 := some (1 / 2)
    , exit_e2 := some (1 / 4), exit_e3 := some (1 / 10)
    , expected_mflops := some 5, full_mflops := some 10 }
  , { run_id := "r2", variant := "A", policy_test_acc := some (23 / 25)
    , compute_saving_pct := some 32, exit_e1 := some (2 / 5)
    , exit_e2 := some (3 / 10), exit_e3 := Option.none
    , expected_mflops := some 6, full_mflops := some 10 }
  , { run_id := "r3", variant := "A", policy_test_acc := some (47 / 50)
    , compute_saving_pct := some 28, exit_e1 := some (9 / 20)
    , exit_e2 := some (1 / 5), exit_e3 := some (3 / 20)
    , expected_mflops := some 7, full_mflops := some 10 } ]

/-- A fourth run, in a different variant. -/
def c1recB : RunRecord :=
  { run_id := "r4", variant := "B", policy_test_acc := some (1 / 2)
  , compute_saving_pct := some 10, exit_e1 := some (1 / 10)
  , exit_e2 := some (1 / 10), exit_e3 := some (1 / 10)
  , expected_mflops := some 9, full_mflops := some 10 }

/-- A non-empty input table whose header lacks the `variant` column. -/
def c6table : VariantsInput where
  columns := ["run_id", "policy_test_acc"]
  records := [ { run_id := "r1", variant := "A", policy_test_acc := some (1 / 2)
               , compute_saving_pct := Option.none, exit_e1 := Option.none
               , exit_e2 := Option.none, exit_e3 := Option.none
               , expected_mflops := Option.none, full_mflops := Option.none } ]

/-- An input table with zero rows. -/
def c7table : VariantsInput where
  columns := ["run_id", "variant", "policy_test_acc", "compute_saving_pct",
    "exit_e1", "exit_e2", "exit_e3", "expected_mflops", "full_mflops"]
  records := []

end VariantsAvg

namespace AnalysisToLatex

/-- A metrics dict with every key present. -/
def c2metrics : MetricsDict where
  precision := some (PyVal.num (1 / 2))
  recall_val := some (PyVal.num (1 / 2))
  f1 := some (PyVal.num (1 / 2))
  support := some (PyVal.num 4)

/-- An exit report whose class keys `"1"` and `"01"` (in that insertion
order) are distinct strings parsing to the same integer. -/
def c2dict : ExitDict :=
  [ ("1", Entry.meas c2metrics)
  , ("01", Entry.meas c2metrics)
  , ("accuracy", Entry.scal (PyVal.num (24 / 25))) ]

/-- The same two class keys in the opposite insertion order. -/
def c2dictRev : ExitDict :=
  [ ("01", Entry.meas c2metrics)
  , ("1", Entry.meas c2metrics)
  , ("accuracy", Entry.scal (PyVal.num (24 / 25))) ]

/-- An exit report with integer class keys out of order plus reserved keys. -/
def c2dictInt : ExitDict :=
  [ ("2", Entry.meas c2metrics)
  , ("0", Entry.meas c2metrics)
  , ("1", Entry.meas c2metrics)
  , ("accuracy", Entry.scal (PyVal.num (24 / 25)))
  , ("macro avg", Entry.meas c2metrics) ]

/-- An exit report with non-numeric class keys out of order. -/
def c2dictStr : ExitDict :=
  [ ("male", Entry.meas c2metrics)
  , ("female", Entry.meas c2metrics)
  , ("accuracy", Entry.scal (PyVal.num (24 / 25))) ]

/-- A report whose only class row has a non-numeric `precision` value. -/
def c3cpe : Cpe :=
  [ ("exit1",
      [ ("0", Entry.meas
          { precision := some (PyVal.str "oops")
          , recall_val := some (PyVal.num (1 / 2))
          , f1 := some (PyVal.num (1 / 2))
          , support := some (PyVal.num 4) }) ]) ]

/-- An analysis JSON lacking the `classification_per_exit` key. -/
def c6json : AnalysisJson where
  classification_per_exit := Option.none
  label_names := Option.none

/-- An exit report with no `accuracy`, `macro avg` or `weighted avg` key. -/
def c8noAcc : ExitDict :=
  [ ("0", Entry.meas c2metrics), ("1", Entry.meas c2metrics) ]

/-- An exit report with an `accuracy` scalar present. -/
def c8withAcc : ExitDict :=
  [ ("0", Entry.meas c2metrics)
  , ("accuracy", Entry.scal (PyVal.num (24 / 25))) ]

/-- A metrics dict with every key absent. -/
def c10metrics : MetricsDict where
  precision := Option.none
  recall_val := Option.none
  f1 := Option.none
  support := Option.none

end AnalysisToLatex


namespace VariantsAvg

/-- C1: the variant aggregator averages each declared numeric field over
exactly the records of the group in which the field is present: an empty
present-set yields a missing aggregate (never zero), the mean is the sum
of the present values over their count, appending a record of another
variant changes nothing (group isolation), appending a record lacking the
field changes nothing for that field, and a present value of a group
member enters that field's value list. -/
theorem variant_group_mean_correct (recs : List RunRecord) (v : String)
    (f : RunRecord → Option ℚ) (r : RunRecord) (a : ℚ) :
    (presentVals f recs v = [] → fieldMean f recs v = Option.none)
    ∧ (presentVals f recs v ≠ [] →
        fieldMean f recs v
          = some ((presentVals f recs v).sum / ((presentVals f recs v).length : ℚ)))
    ∧ (r.variant ≠ v → fieldMean f (recs ++ [r]) v = fieldMean f recs v)
    ∧ (f r = Option.none → fieldMean f (recs ++ [r]) v = fieldMean f recs v)
    ∧ (r.variant = v → f r = some a →
        presentVals f (recs ++ [r]) v = presentVals f recs v ++ [a]) := by
  refine ⟨?_, ?_, ?_, ?_, ?_⟩
  · intro h
    simp [fieldMean, h]
  · intro h
    simp [fieldMean, h]
  · intro h
    have hnil : presentVals f (recs ++ [r]) v = presentVals f recs v := by
      simp [presentVals, groupRecs, List.filter_append, List.filter_cons, h]
    simp [fieldMean, hnil]
  · intro h
    have hnil : presentVals f (recs ++ [r]) v = presentVals f recs v := by
      cases hc : (r.variant == v) <;>
        simp [presentVals, groupRecs, List.filter_append, List.filter_cons, hc, h]
    simp [fieldMean, hnil]
  · intro hv ha
    simp [presentVals, groupRecs, List.filter_append, List.filter_cons, hv, ha]

/-- C1 witness: three variant-A runs with accuracies 0.90, 0.92, 0.94 mean
to 0.92; a fourth record in variant B leaves the A summary unchanged; the
run lacking `exit_e3` is excluded from the `exit_e3` values but its
accuracy still counts. -/
theorem variant_group_mean_correct_witness :
    fieldMean (fun r => r.policy_test_acc) c1recs "A" = some (23 / 25)
    ∧ fieldMean (fun r => r.policy_test_acc) (c1recs ++ [c1recB]) "A"
        = fieldMean (fun r => r.policy_test_acc) c1recs "A"
    ∧ presentVals (fun r => r.exit_e3) c1recs "A" = [1 / 10, 3 / 20]
    ∧ presentVals (fun r => r.policy_test_acc) c1recs "A"
        = [9 / 10, 23 / 25, 47 / 50] := by
  refine ⟨?_, ?_, ?_, ?_⟩
  · exact ((variant_group_mean_correct c1recs "A" (fun r => r.policy_test_acc)
      c1recB 0).2.1 (by with_unfolding_all decide)).trans
      (by with_unfolding_all decide)
  · exact (variant_group_mean_correct c1recs "A" (fun r => r.policy_test_acc)
      c1recB 0).2.2.1 (by with_unfolding_all decide)
  · with_unfolding_all decide
  · with_unfolding_all decide

end VariantsAvg

namespace AnalysisToLatex

/-- C2 (amended): class-row ordering.  Reserved aggregate keys never appear
among the ordered class rows; when every class key parses as an integer
and distinct keys have distinct integer values the rendered order is
strictly increasing numerically; when some key does not parse the order
is lexicographic (sorted and a permutation of the class-key set). -/
theorem class_row_order (d : ExitDict) :
    (∀ k ∈ sortClassKeys (classKeys d), aggregateKeys.contains k = false)
    ∧ (allIntKeys (classKeys d) = true →
        List.Pairwise (fun a b => keyInt a ≠ keyInt b) (classKeys d) →
        List.Chain' (· < ·) ((sortClassKeys (classKeys d)).map keyInt))
    ∧ (allIntKeys (classKeys d) = false →
        List.Sorted (· ≤ ·) (sortClassKeys (classKeys d))
          ∧ (sortClassKeys (classKeys d)).Perm (classKeys d)) := by
  haveI ht1 : IsTotal String (fun a b => keyInt a ≤ keyInt b) :=
    ⟨fun a b => le_total _ _⟩
  haveI ht2 : IsTrans String (fun a b => keyInt a ≤ keyInt b) :=
    ⟨fun _ _ _ hab hbc => le_trans hab hbc⟩
  refine ⟨?_, ?_, ?_⟩
  · intro k hk
    have hk' : k ∈ classKeys d := by
      unfold sortClassKeys at hk
      split at hk <;> exact (List.mem_insertionSort _).mp hk
    have hmem := List.of_mem_filter hk'
    simpa using hmem
  · intro hall hdist
    simp only [sortClassKeys, hall, if_true]
    have hsorted : List.Sorted (fun a b => keyInt a ≤ keyInt b)
        (List.insertionSort (fun a b => keyInt a ≤ keyInt b) (classKeys d)) :=
      List.sorted_insertionSort _ _
    have hperm := List.perm_insertionSort
      (fun a b => keyInt a ≤ keyInt b) (classKeys d)
    have hne : List.Pairwise (fun a b => keyInt a ≠ keyInt b)
        (List.insertionSort (fun a b => keyInt a ≤ keyInt b) (classKeys d)) :=
      (List.Perm.pairwise_iff (fun h e => h e.symm) hperm).mpr hdist
    have hlt : List.Pairwise (fun a b => keyInt a < keyInt b)
        (List.insertionSort (fun a b => keyInt a ≤ keyInt b) (classKeys d)) :=
      (hsorted.and hne).imp (fun h => lt_of_le_of_ne h.1 h.2)
    exact (List.chain'_map keyInt).mpr hlt.chain'
  · intro hall
    simp only [sortClassKeys, hall]
    exact ⟨List.sorted_insertionSort _ _, List.perm_insertionSort _ _⟩

/-- C2 counterexample: the distinct class keys "1" and "01" (insertion
order of `c2dict`) both parse as the integer 1, so the rendered order is
not strictly increasing numerically, and the same key set in the other
insertion order (`c2dictRev`) renders in a different order -- the order is
not determined by the key set alone. -/
theorem class_row_order_cex :
    allIntKeys (classKeys c2dict) = true
    ∧ sortClassKeys (classKeys c2dict) = ["1", "01"]
    ∧ ¬ List.Chain' (· < ·) ((sortClassKeys (classKeys c2dict)).map keyInt)
    ∧ sortClassKeys (classKeys c2dict) ≠ sortClassKeys (classKeys c2dictRev) := by
  have hs : sortClassKeys (classKeys c2dict) = ["1", "01"] := by
    with_unfolding_all decide
  have hr : sortClassKeys (classKeys c2dictRev) = ["01", "1"] := by
    with_unfolding_all decide
  have h1 : keyInt "1" = 1 := by with_unfolding_all decide
  have h01 : keyInt "01" = 1 := by with_unfolding_all decide
  refine ⟨by with_unfolding_all decide, hs, ?_, ?_⟩
  · rw [hs]
    simp [List.chain'_cons, h1, h01]
  · rw [hs, hr]
    with_unfolding_all decide

/-- C2 witness: integer keys {"2","0","1"} render in strictly increasing
numeric order, the keys {"male","female"} render lexicographically, and a
reserved key never appears among the rendered class rows. -/
theorem class_row_order_witness :
    List.Chain' (· < ·) ((sortClassKeys (classKeys c2dictInt)).map keyInt)
    ∧ List.Sorted (· ≤ ·) (sortClassKeys (classKeys c2dictStr))
    ∧ aggregateKeys.contains "0" = false := by
  have hck : classKeys c2dictInt = ["2", "0", "1"] := by
    with_unfolding_all decide
  have hdist : List.Pairwise (fun a b => keyInt a ≠ keyInt b)
      (classKeys c2dictInt) := by
    rw [hck]
    simp only [List.pairwise_cons, List.mem_cons, List.not_mem_nil]
    refine ⟨?_, ?_, ?_⟩
    · intro b hb
      rcases hb with rfl | rfl | h
      · with_unfolding_all decide
      · with_unfolding_all decide
      · exact absurd h (by simp)
    · intro b hb
      rcases hb with rfl | h
      · with_unfolding_all decide
      · exact absurd h (by simp)
    · exact ⟨fun a h => absurd h (by simp), List.Pairwise.nil⟩
  refine ⟨?_, ?_, ?_⟩
  · exact (class_row_order c2dictInt).2.1 (by with_unfolding_all decide) hdist
  · exact ((class_row_order c2dictStr).2.2 (by with_unfolding_all decide)).1
  · exact (class_row_order c2dictInt).1 "0" (by with_unfolding_all decide)

end AnalysisToLatex

/-- C3 counterexample: in the per-run renderer, a class row whose
`precision` is the non-numeric string "oops" makes the format spec raise,
so the whole table rendering fails instead of producing a placeholder
cell. -/
theorem per_run_nonnumeric_fatal_cex :
    (AnalysisToLatex.make_latex_table AnalysisToLatex.c3cpe "ASHADIP_V0 run"
      Option.none).isOk = false := by
  with_unfolding_all decide

namespace VariantsAvg

/-- C3 (amended): in the cross-variant summary table every cell that
cannot be coerced to a number -- including a missing (NaN) mean -- renders
as the explicit placeholder "--" for that cell alone (rendering is a total
function, so the table never fails), and the placeholder is neither zero
nor blank; in the per-run renderer a non-numeric value where a number is
expected raises instead of producing a placeholder. -/
theorem variants_cell_placeholder (v : PyVal) (s : String)
    (h : pyFloat v = Option.none) :
    fmt_pct_frac v = "--"
    ∧ fmt_pct v = "--"
    ∧ fmt_pct_frac (optToPy Option.none) = "--"
    ∧ fmt_pct_frac (optToPy Option.none) ≠ "0.0"
    ∧ fmt_pct_frac (optToPy Option.none) ≠ ""
    ∧ (pyFormatFixed 3 (PyVal.str s)).isOk = false := by
  refine ⟨?_, ?_, by with_unfolding_all decide, by with_unfolding_all decide,
    by with_unfolding_all decide, rfl⟩
  · cases v with
    | num q => simp [pyFloat] at h
    | str t => simp [fmt_pct_frac, pdIsna, pyFloat] at h ⊢; simp [h]
    | null => simp [fmt_pct_frac, pdIsna]
  · cases v with
    | num q => simp [pyFloat] at h
    | str t => simp [fmt_pct, pdIsna, pyFloat] at h ⊢; simp [h]
    | null => simp [fmt_pct, pdIsna]

/-- C3 witness: the unparseable string "abc" renders as "--" in both
percentage formatters. -/
theorem variants_cell_placeholder_witness :
    fmt_pct_frac (PyVal.str "abc") = "--"
    ∧ fmt_pct (PyVal.str "abc") = "--" := by
  have h := variants_cell_placeholder (PyVal.str "abc") "abc"
    (by with_unfolding_all decide)
  exact ⟨h.1, h.2.1⟩

end VariantsAvg

namespace AnalysisToLatex

/-- C4 counterexample: the integer-parseable key "-1" lies outside the
0-based index range of the two-element list ["female","male"], yet label
translation does not fall back to the raw key: Python negative indexing
maps it to the last name, "male". -/
theorem negative_key_translation_cex :
    translateLabel (some ["female", "male"]) "-1" = "male"
    ∧ translateLabel (some ["female", "male"]) "-1" ≠ "-1" := by
  with_unfolding_all decide

/-- C4 (amended): label translation is total (never raises) and behaves
as Python list indexing: with no name list the raw key is rendered; a
non-parsing key is rendered raw; a parsing key renders the indexed name
when the index resolves and the raw key otherwise, where a non-negative
index resolves iff it is below the list length, and a negative index
(Python indexing from the end) resolves iff its magnitude is at most the
list length. -/
theorem label_translation_total (names : List String) (cls : String) (i : Int) :
    (translateLabel Option.none cls = cls)
    ∧ (pyIntParse cls = Option.none → translateLabel (some names) cls = cls)
    ∧ (pyIntParse cls = some i →
        translateLabel (some names) cls = (pyIndex names i).getD cls)
    ∧ (0 ≤ i → i.toNat < names.length → pyIndex names i = names.get? i.toNat)
    ∧ (0 ≤ i → names.length ≤ i.toNat → pyIndex names i = Option.none)
    ∧ (i < 0 → (-i).toNat ≤ names.length →
        pyIndex names i = names.get? (names.length - (-i).toNat))
    ∧ (i < 0 → names.length < (-i).toNat → pyIndex names i = Option.none) := by
  refine ⟨rfl, ?_, ?_, ?_, ?_, ?_, ?_⟩
  · intro h
    simp [translateLabel, h]
  · intro h
    simp only [translateLabel, h]
    cases hp : pyIndex names i <;> simp [hp]
  · intro h0 hlt
    simp [pyIndex, h0]
  · intro h0 hge
    simp only [pyIndex, if_pos h0]
    exact List.get?_eq_none.mpr hge
  · intro hneg hle
    have : ¬ (0 ≤ i) := by omega
    simp [pyIndex, this, hle]
  · intro hneg hgt
    have h1 : ¬ (0 ≤ i) := by omega
    have h2 : ¬ ((-i).toNat ≤ names.length) := by omega
    simp [pyIndex, h1, h2]

/-- C4 witness: key "1" with names ["female","male"] renders "male"; the
out-of-range key "5" falls back to itself. -/
theorem label_translation_total_witness :
    translateLabel (some ["female", "male"]) "1" = "male"
    ∧ translateLabel (some ["female", "male"]) "5" = "5" := by
  constructor
  · exact ((label_translation_total ["female", "male"] "1" 1).2.2.1
      (by with_unfolding_all decide)).trans (by with_unfolding_all decide)
  · exact ((label_translation_total ["female", "male"] "5" 5).2.2.1
      (by with_unfolding_all decide)).trans (by with_unfolding_all decide)

end AnalysisToLatex

/-- C5 counterexample: the already-percentage value 92.34 on the
three-decimal raw path renders as "92.340", not "0.923" -- the `.3f`
format does not rescale its argument. -/
theorem raw_path_three_decimal_cex :
    pyFormatFixed 3 (PyVal.num (9234 / 100)) = Except.ok "92.340"
    ∧ fmtFixed 3 (9234 / 100) ≠ "0.923" := by
  with_unfolding_all decide

/-- C5 (amended): percentage-like fields are rendered with exactly one
decimal place -- the fraction path scales by 100 (0.9234 renders "92.3"),
the already-percentage path does not (92.34 renders "92.3") -- while the
three-decimal raw path renders its argument un-scaled to three decimals:
the fraction 0.9234 renders "0.923" and the value 92.34 renders "92.340". -/
theorem numeric_formatting_exact (q : ℚ) :
    VariantsAvg.fmt_pct_frac (PyVal.num q) = fmtFixed 1 (q * 100)
    ∧ VariantsAvg.fmt_pct (PyVal.num q) = fmtFixed 1 q
    ∧ VariantsAvg.fmt_pct_frac (PyVal.num (9234 / 10000)) = "92.3"
    ∧ VariantsAvg.fmt_pct (PyVal.num (9234 / 100)) = "92.3"
    ∧ pyFormatFixed 3 (PyVal.num (9234 / 10000)) = Except.ok "0.923"
    ∧ pyFormatFixed 3 (PyVal.num (9234 / 100)) = Except.ok "92.340" := by
  refine ⟨?_, ?_, by with_unfolding_all decide, by with_unfolding_all decide,
    by with_unfolding_all decide, by with_unfolding_all decide⟩
  · simp [VariantsAvg.fmt_pct_frac, pdIsna, pyFloat]
  · simp [VariantsAvg.fmt_pct, pdIsna, pyFloat]

set_option maxRecDepth 8192 in
/-- C6: a missing required top-level key or column is fatal before any
output is produced.  The per-run renderer on input lacking
`classification_per_exit` returns the error naming that key (so neither
the CSV backup nor the table is produced), and the variant summarizer on
a non-empty table whose header lacks the `variant` column returns the
error naming that column (producing no table). -/
theorem missing_key_fatal (a : AnalysisToLatex.AnalysisJson)
    (lbl p p2 : String) (t : VariantsAvg.VariantsInput)
    (ha : a.classification_per_exit = Option.none)
    (hne : t.records.isEmpty = false)
    (hcol : t.columns.contains "variant" = false) :
    AnalysisToLatex.analysisMain a lbl p
        = Except.error (AnalysisToLatex.noCpeMsg p)
    ∧ containsSub (AnalysisToLatex.noCpeMsg "analysis_run.json")
        "classification_per_exit" = true
    ∧ VariantsAvg.variantsMain t p2 = Except.error VariantsAvg.noVariantColMsg
    ∧ containsSub VariantsAvg.noVariantColMsg "variant" = true := by
  refine ⟨?_, by with_unfolding_all decide, ?_, by with_unfolding_all decide⟩
  · simp [AnalysisToLatex.analysisMain, ha]
  · have hmem : "variant" ∉ t.columns := by simpa using hcol
    simp [VariantsAvg.variantsMain, hne, hmem]

/-- C6 witness: the concrete JSON without `classification_per_exit` and
the concrete one-row table without a `variant` column both fail with the
respective named-key errors. -/
theorem missing_key_fatal_witness :
    AnalysisToLatex.analysisMain AnalysisToLatex.c6json "ASHADIP_V0 run"
        "analysis_run.json"
      = Except.error (AnalysisToLatex.noCpeMsg "analysis_run.json")
    ∧ VariantsAvg.variantsMain VariantsAvg.c6table "all_runs_summary.csv"
      = Except.error VariantsAvg.noVariantColMsg := by
  have h := missing_key_fatal AnalysisToLatex.c6json "ASHADIP_V0 run"
    "analysis_run.json" "all_runs_summary.csv" VariantsAvg.c6table
    rfl rfl (by with_unfolding_all decide)
  exact ⟨h.1, h.2.2.1⟩

namespace VariantsAvg

set_option maxRecDepth 8192 in
/-- C7: aggregating an input table with zero rows is a fatal
"nothing to summarise" error; no table is emitted. -/
theorem empty_input_fatal (t : VariantsInput) (p : String)
    (h : t.records = []) :
    variantsMain t p = Except.error (noRowsMsg p)
    ∧ containsSub (noRowsMsg "all_runs_summary.csv") "nothing to summarise"
        = true := by
  refine ⟨?_, by with_unfolding_all decide⟩
  simp [variantsMain, h]

/-- C7 witness: the concrete zero-row table fails with the empty-input
error. -/
theorem empty_input_fatal_witness :
    variantsMain c7table "all_runs_summary.csv"
      = Except.error (noRowsMsg "all_runs_summary.csv") :=
  (empty_input_fatal c7table "all_runs_summary.csv" rfl).1

end VariantsAvg

namespace AnalysisToLatex

/-- C8: reserved-row handling.  An exit report without `accuracy` renders
no accuracy rows (omission, never a zero default), one with a numeric
`accuracy` renders the midrule and the accuracy line; with both average
keys absent no average rows render; in the flat backup the accuracy row
carries its scalar in the dedicated accuracy column with
precision/recall/F1/support null, and every other (dict) row carries its
raw metrics with the accuracy column null. -/
theorem accuracy_row_handling (d : ExitDict) (q : ℚ) (m : MetricsDict)
    (ex key : String) (names : Option (List String)) :
    (lookupDict d "accuracy" = Option.none → accuracyLines d = Except.ok [])
    ∧ (lookupDict d "accuracy" = some (Entry.scal (PyVal.num q)) →
        accuracyLines d = Except.ok
          [ "    \\midrule"
          , "    accuracy & \\multicolumn\x7b3\x7d\x7br\x7d\x7b"
              ++ fmtFixed 3 q ++ "\x7d & -- \\\\" ])
    ∧ (lookupDict d "macro avg" = Option.none →
        lookupDict d "weighted avg" = Option.none →
        aggregateLines d = Except.ok [])
    ∧ (flattenEntry ex names "accuracy" (Entry.scal (PyVal.num q))
        = Except.ok (some
          { exit_name := ex, row_type := "summary", name := "accuracy"
          , precision := Option.none, recall_val := Option.none
          , f1_score := Option.none, support := Option.none
          , accuracy := some q }))
    ∧ (key ≠ "accuracy" → flattenEntry ex names key (Entry.meas m)
        = Except.ok (some
          { exit_name := ex, row_type := rowTypeOf key
          , name := backupName names key
          , precision := m.precision, recall_val := m.recall_val
          , f1_score := m.f1, support := m.support
          , accuracy := Option.none })) := by
  refine ⟨?_, ?_, ?_, ?_, ?_⟩
  · intro h
    simp [accuracyLines, h]
  · intro h
    simp [accuracyLines, h]
  · intro h1 h2
    simp [aggregateLines, h1, h2]
    rfl
  · simp [flattenEntry, pyFloat]
  · intro hk
    simp [flattenEntry, hk]

/-- C8 witness: the concrete report without reserved keys renders no
accuracy and no average rows; the one with accuracy 0.96 renders the
accuracy line; the two backup-row shapes at concrete entries. -/
theorem accuracy_row_handling_witness :
    accuracyLines c8noAcc = Except.ok []
    ∧ aggregateLines c8noAcc = Except.ok []
    ∧ accuracyLines c8withAcc = Except.ok
        [ "    \\midrule"
        , "    accuracy & \\multicolumn\x7b3\x7d\x7br\x7d\x7b0.960\x7d & -- \\\\" ]
    ∧ flattenEntry "exit1" Option.none "accuracy"
        (Entry.scal (PyVal.num (24 / 25)))
      = Except.ok (some
        { exit_name := "exit1", row_type := "summary", name := "accuracy"
        , precision := Option.none, recall_val := Option.none
        , f1_score := Option.none, support := Option.none
        , accuracy := some (24 / 25) })
    ∧ flattenEntry "exit1" Option.none "0" (Entry.meas c2metrics)
      = Except.ok (some
        { exit_name := "exit1", row_type := "class", name := "0"
        , precision := c2metrics.precision
        , recall_val := c2metrics.recall_val
        , f1_score := c2metrics.f1, support := c2metrics.support
        , accuracy := Option.none }) := by
  have h1 := accuracy_row_handling c8noAcc (24 / 25) c2metrics "exit1" "0"
    Option.none
  have h2 := accuracy_row_handling c8withAcc (24 / 25) c2metrics "exit1" "0"
    Option.none
  refine ⟨h1.1 rfl, h1.2.2.1 rfl rfl, ?_, h1.2.2.2.1, ?_⟩
  · exact (h2.2.1 rfl).trans (by with_unfolding_all decide)
  · exact (h1.2.2.2.2 (by with_unfolding_all decide)).trans
      (by with_unfolding_all decide)

end AnalysisToLatex

namespace AudioAdapter

/-- C9: for every input, the backbone's forward pass returns a tap list of
length (number of stages - 1) = 2; the final-stage feature (64 channels)
is returned separately and is not an element of the tap list; and each
non-final tap is the per-channel maximum over the time axis followed by
the mean over the frequency axis of its stage's output. -/
theorem backbone_tap_contract (b m t h1 w1 h2 w2 : ℕ)
    (net : TinyAudioCNN b m t h1 w1 h2 w2) (x : Tensor b 1 m t) :
    ((net.forward x).2.length = numStages - 1)
    ∧ ((⟨64, (net.forward x).1⟩ : Feat b) ∉ (net.forward x).2)
    ∧ ((net.forward x).2
        = [ ⟨16, meanLast (amaxLast (net.block1 x))⟩
          , ⟨32, meanLast (amaxLast (net.block2 (net.block1 x)))⟩ ]) := by
  refine ⟨rfl, ?_, rfl⟩
  intro hmem
  simp [TinyAudioCNN.forward] at hmem

end AudioAdapter

namespace AnalysisToLatex

/-- C10: a class or aggregate row whose metrics dict lacks precision,
recall or f1-score renders those cells as 0.000 (support as 0) -- the
absent value is silently defaulted, not omitted and not a placeholder --
while the flat CSV backup stores null for the absent metrics. -/
theorem missing_metric_defaults (m : MetricsDict) (name ex key : String)
    (names : Option (List String))
    (hp : m.precision = Option.none) (hr : m.recall_val = Option.none)
    (hf : m.f1 = Option.none) (hs : m.support = Option.none)
    (hk : key ≠ "accuracy") :
    renderMetricRow name m
      = Except.ok ("    " ++ name ++ " & " ++ "0.000" ++ " & " ++ "0.000"
          ++ " & " ++ "0.000" ++ " & " ++ "0" ++ " \\\\")
    ∧ flattenEntry ex names key (Entry.meas m)
      = Except.ok (some
        { exit_name := ex, row_type := rowTypeOf key
        , name := backupName names key
        , precision := Option.none, recall_val := Option.none
        , f1_score := Option.none, support := Option.none
        , accuracy := Option.none }) := by
  constructor
  · have h000 : fmtFixed 3 0 = "0.000" := by with_unfolding_all decide
    simp [renderMetricRow, hp, hr, hf, hs, pyFormatFixed, pyToInt, h000]
    rfl
  · simp [flattenEntry, hk, hp, hr, hf, hs]

/-- C10 witness: the all-absent metrics dict renders the 0.000 row and
backs up as nulls. -/
theorem missing_metric_defaults_witness :
    renderMetricRow "cat" c10metrics
      = Except.ok "    cat & 0.000 & 0.000 & 0.000 & 0 \\\\"
    ∧ flattenEntry "exit1" Option.none "cat" (Entry.meas c10metrics)
      = Except.ok (some
        { exit_name := "exit1", row_type := "class", name := "cat"
        , precision := Option.none, recall_val := Option.none
        , f1_score := Option.none, support := Option.none
        , accuracy := Option.none }) := by
  have h := missing_metric_defaults c10metrics "cat" "exit1" "cat"
    Option.none rfl rfl rfl rfl (by with_unfolding_all decide)
  exact ⟨h.1.trans (by with_unfolding_all decide),
    h.2.trans (by with_unfolding_all decide)⟩

end AnalysisToLatex
